import Mathlib

/-
  Verification development for the gold-rush-scanner lead-generation tool.

  Shallow embedding of the keyword scoring engine (src/scanner.py), the
  SQLite lead store and reply queue (src/db.py), and the reply approval
  and dispatch operations (src/reply_queue.py).  SQLite tables are modelled
  as in-memory lists of rows together with an AUTOINCREMENT counter; the
  PRAW delivery collaborator and wall-clock timestamps are abstracted as
  explicit parameters, exactly as the surrounding code treats them.
-/

namespace GoldRush

/-- Boolean test that one character list occurs contiguously inside another.
Models the semantics of the Python substring operator for strings. -/
def subAux (needle : List Char) : List Char → Bool
  | [] => needle.isEmpty
  | c :: t => needle.isPrefixOf (c :: t) || subAux needle t

/-- Models the Python expression needle in hay on strings: contiguous
case-sensitive substring containment. -/
def strIn (needle hay : String) : Bool :=
  subAux needle.toList hay.toList

/-- Python str.lower, rendered characterwise over the string's character
list so that it evaluates by kernel reduction (String.toLower itself is
defined by well-founded recursion over byte positions and does not). -/
def lowerStr (s : String) : String := String.mk (s.data.map Char.toLower)

/-- Python str.strip: drop leading and trailing whitespace, rendered over
the character list for the same reason. -/
def trimStr (s : String) : String :=
  String.mk (((s.data.dropWhile Char.isWhitespace).reverse.dropWhile
    Char.isWhitespace).reverse)

/-- Python s[:n] on strings: the first n characters, rendered over the
character list for the same reason. -/
def takeStr (s : String) (n : Nat) : String := String.mk (s.data.take n)

/-- The configuration values from src/config.py that the scoring engine and
qualification filters read (KEYWORDS is a weight map in iteration order;
the remaining fields are the plain lists and constants). -/
structure ScanConfig where
  KEYWORDS : List (String × Int)
  TARGET_LOCATIONS : List String
  LOCATION_SCORE_BOOST : Int
  LOCAL_SUBREDDITS : List String
  LOCAL_REQUIRED_TERMS : List String
  NEGATIVE_KEYWORDS : List String
  SELLER_SIGNALS : List String
  MIN_SCORE_THRESHOLD : Int
deriving Repr, DecidableEq

/-- Embedding of scanner._check_location (src/scanner.py lines 109-116):
first configured target location occurring in the lowercased text, if any. -/
def check_location (cfg : ScanConfig) (text_lower : String) : Option String :=
  if cfg.TARGET_LOCATIONS.isEmpty then none
  else cfg.TARGET_LOCATIONS.find? (fun loc => strIn loc text_lower)

/-- The generic trigger words hard-coded in the no-keyword-match fallback of
score_text (src/scanner.py line 134). -/
def fallback_triggers : List String :=
  ["remodel", "renovate", "contractor", "kitchen", "bathroom", "remodeler"]

/-- Embedding of the keyword-matching loop of score_text
(src/scanner.py lines 126-129): all configured keywords contained in the
lowercased text, in map iteration order, with their weights. -/
def keyword_matches (cfg : ScanConfig) (text_lower : String) : List (String × Int) :=
  cfg.KEYWORDS.filter (fun kw => strIn kw.1 text_lower)

/-- Maximum weight of a nonempty list of matches, written with an explicit
head so that it is total: models max(w for _, w in matches) at
src/scanner.py line 137. -/
def max_weight : (String × Int) → List (String × Int) → Int
  | m, [] => m.2
  | m, p :: t => max m.2 (max_weight p t)

/-- The no-keyword-match half of score_text (src/scanner.py lines 130-136):
either the location fallback with one of the hard-coded trigger words, or
zero. -/
def no_match_score (cfg : ScanConfig) (text_lower : String) :
    Int × List (String × Int) :=
  match check_location cfg text_lower with
  | some location =>
    if fallback_triggers.any (fun kw => strIn kw text_lower) then
      (min (cfg.LOCATION_SCORE_BOOST + 3) 10,
       [("📍 " ++ location, cfg.LOCATION_SCORE_BOOST + 3)])
    else (0, [])
  | none => (0, [])

/-- The elif/else tail of score_text for a keyword match without a location
hit (src/scanner.py lines 146-151): the national-subreddit cap, rendered
with the Python truthiness test on subreddit as the explicit check against
the empty string. -/
def no_location_score (cfg : ScanConfig) (m : String × Int)
    (rest : List (String × Int)) : Option String → Int × List (String × Int)
  | some sub =>
    if sub != "" && !(cfg.LOCAL_SUBREDDITS.contains sub) then
      (min (min (max_weight m rest + min (((m :: rest).length : Int) - 1) 2) 6) 10,
       (m :: rest) ++ [("⚠️ no CO location", 0)])
    else
      (min (max_weight m rest + min (((m :: rest).length : Int) - 1) 2) 10,
       m :: rest)
  | none =>
    (min (max_weight m rest + min (((m :: rest).length : Int) - 1) 2) 10,
     m :: rest)

/-- The keyword-match half of score_text (src/scanner.py lines 137-151),
for a nonempty match list with head m and tail rest.  The intermediate
variables best, bonus and score of lines 137-139 are inlined. -/
def matched_score (cfg : ScanConfig) (text_lower : String)
    (subreddit : Option String) (m : String × Int)
    (rest : List (String × Int)) : Int × List (String × Int) :=
  match check_location cfg text_lower with
  | some location =>
    (min (max_weight m rest + min (((m :: rest).length : Int) - 1) 2
            + cfg.LOCATION_SCORE_BOOST) 10,
     (m :: rest) ++ [("📍 " ++ location, cfg.LOCATION_SCORE_BOOST)])
  | none => no_location_score cfg m rest subreddit

/-- Embedding of scanner.score_text (src/scanner.py lines 119-151), put
together from its two halves according to whether the keyword match list of
lines 126-129 is empty. -/
def score_text (cfg : ScanConfig) (text : String) (subreddit : Option String) :
    Int × List (String × Int) :=
  match keyword_matches cfg (lowerStr text) with
  | [] => no_match_score cfg (lowerStr text)
  | m :: rest => matched_score cfg (lowerStr text) subreddit m rest

/-- Embedding of scanner._hits_negative_keyword (src/scanner.py lines 39-41). -/
def hits_negative_keyword (cfg : ScanConfig) (text_lower : String) : Bool :=
  cfg.NEGATIVE_KEYWORDS.any (fun neg => strIn neg text_lower)

/-- Embedding of scanner._is_seller (src/scanner.py lines 44-49): at least
two of the configured seller-signal phrases occur in the lowercased text. -/
def is_seller (cfg : ScanConfig) (text_lower : String) : Bool :=
  if cfg.SELLER_SIGNALS.isEmpty then false
  else decide (2 ≤ cfg.SELLER_SIGNALS.countP (fun s => strIn s text_lower))

/-- Embedding of scanner._passes_local_filter (src/scanner.py lines 52-57). -/
def passes_local_filter (cfg : ScanConfig) (text subreddit : String) : Bool :=
  if !(cfg.LOCAL_SUBREDDITS.contains subreddit) then true
  else cfg.LOCAL_REQUIRED_TERMS.any (fun term => strIn term (lowerStr text))

/-- A row of the leads table (src/db.py lines 17-30); contacted and notes
take their SQL column defaults at insertion. -/
structure Lead where
  id : Nat
  platform : String
  username : String
  content : String
  url : String
  subreddit : String
  intent_score : Int
  found_at : String
  contacted : Nat := 0
  notes : String := ""
deriving Repr, DecidableEq

/-- The leads table: its rows in insertion order plus the AUTOINCREMENT
counter for the next id. -/
structure LeadsDB where
  rows : List Lead
  next_id : Nat
deriving Repr, DecidableEq

/-- Embedding of db.insert_lead (src/db.py lines 78-92): INSERT OR IGNORE
against the UNIQUE url column, reporting through total_changes whether a row
was inserted.  The found_at default of the current time is supplied by the
caller. -/
def insert_lead (db : LeadsDB) (platform username content url subreddit : String)
    (intent_score : Int) (found_at : String) : LeadsDB × Bool :=
  if db.rows.any (fun r => r.url == url) then (db, false)
  else
    ({ rows := db.rows ++
        [{ id := db.next_id, platform := platform, username := username,
           content := takeStr content 2000, url := url, subreddit := subreddit,
           intent_score := intent_score, found_at := found_at }],
       next_id := db.next_id + 1 }, true)

/-- A row of the reply_queue table (src/db.py lines 52-64). -/
structure QueueItem where
  id : Nat
  lead_id : Nat
  reply_text : String
  target_url : String
  status : String := "pending"
  created_at : String
  posted_at : Option String := none
  error_message : String := ""
deriving Repr, DecidableEq

/-- The reply_queue table: rows in insertion order plus the AUTOINCREMENT
counter. -/
structure QueueDB where
  rows : List QueueItem
  next_id : Nat
deriving Repr, DecidableEq

/-- Embedding of db.add_to_queue (src/db.py lines 223-234): inserts a new
pending item and returns its id; the created_at timestamp is supplied by the
caller. -/
def add_to_queue (db : QueueDB) (lead_id : Nat) (reply_text target_url : String)
    (now : String) : QueueDB × Nat :=
  ({ rows := db.rows ++
      [{ id := db.next_id, lead_id := lead_id, reply_text := reply_text,
         target_url := target_url, status := "pending", created_at := now }],
     next_id := db.next_id + 1 }, db.next_id)

/-- The per-row effect of the UPDATE statements in db.update_queue_status
(src/db.py lines 261-264): the row with the matching id gets the new status,
and the new error_message as well when an error string is passed; other
rows are untouched. -/
def apply_update (queue_id : Nat) (status : String) (error : Option String)
    (r : QueueItem) : QueueItem :=
  if r.id == queue_id then
    match error with
    | some e => { r with status := status, error_message := e }
    | none => { r with status := status }
  else r

/-- Embedding of db.update_queue_status (src/db.py lines 258-266): sets the
status of the row with the given id unconditionally, and the error_message
as well when an error string is passed. -/
def update_queue_status (db : QueueDB) (queue_id : Nat) (status : String)
    (error : Option String) : QueueDB :=
  { db with rows := db.rows.map (apply_update queue_id status error) }

/-- Embedding of reply_queue.approve_reply (src/reply_queue.py lines 58-60). -/
def approve_reply (db : QueueDB) (queue_id : Nat) : QueueDB :=
  update_queue_status db queue_id "approved" none

/-- Embedding of reply_queue.skip_reply (src/reply_queue.py lines 63-65). -/
def skip_reply (db : QueueDB) (queue_id : Nat) : QueueDB :=
  update_queue_status db queue_id "skipped" none

/-- Embedding of db.is_lead_queued (src/db.py lines 288-293): COUNT of
queue rows for the lead, of any status, compared against zero. -/
def is_lead_queued (db : QueueDB) (lead_id : Nat) : Bool :=
  decide (0 < db.rows.countP (fun r => r.lead_id == lead_id))

/-- Observation helper for the specifications: the status stored for the
queue row with the given id, through the same first-match lookup a SELECT by
id performs. -/
def get_status (db : QueueDB) (queue_id : Nat) : Option String :=
  (db.rows.find? (fun r => r.id == queue_id)).map QueueItem.status

/-- Embedding of reply_queue.post_reply (src/reply_queue.py lines 68-118).
The PRAW collaborator is abstracted: creds_available models the test that
_get_reddit returned an authenticated client (false whenever the four Reddit
credentials are not configured), and delivery models the outcome of the
submission/comment reply call, an exception being an error value.  now is
the timestamp taken on success. -/
def post_reply (db : QueueDB) (creds_available : Bool)
    (delivery : Except String Unit) (now : String) (queue_id : Nat) :
    QueueDB × Bool × String :=
  match db.rows.find? (fun r => r.id == queue_id) with
  | none => (db, false, "Queue item not found")
  | some _ =>
    if !creds_available then
      (update_queue_status db queue_id "failed"
         (some "Reddit credentials not configured"),
       false, "Reddit credentials not configured")
    else
      match delivery with
      | Except.ok _ =>
        ({ db with rows := db.rows.map (fun r =>
            if r.id == queue_id then
              { r with
                  status := "posted"
                  posted_at := some now
                  error_message := "" }
            else r) },
         true, "Posted successfully")
      | Except.error e =>
        (update_queue_status db queue_id "failed" (some (takeStr e 500)),
         false, e)

/-- Combined persistent state touched by the scanner: the leads table and
the reply queue. -/
structure ScanState where
  leads : LeadsDB
  queue : QueueDB
deriving Repr, DecidableEq

/-- The tail of scanner._auto_queue_lead once the lead row has been found
(src/scanner.py lines 96-99): skip if the lead already has a queue entry,
otherwise enqueue the generated reply. -/
def auto_queue_found (gen_reply : String → String → String → Int → String)
    (now : String) (st : ScanState) (author content subreddit : String)
    (score : Int) (url : String) (row : Lead) : ScanState :=
  if is_lead_queued st.queue row.id then st
  else
    { st with queue :=
        (add_to_queue st.queue row.id
          (gen_reply author content subreddit score) url now).1 }

/-- Embedding of scanner._auto_queue_lead (src/scanner.py lines 85-102).
gen_reply abstracts templates.generate_reply and now the created_at
timestamp; the lead id is looked up by url with a first-match SELECT. -/
def auto_queue_lead (gen_reply : String → String → String → Int → String)
    (now : String) (st : ScanState) (author content subreddit : String)
    (score : Int) (url : String) : ScanState :=
  if score < 7 then st
  else
    match st.leads.rows.find? (fun r => r.url == url) with
    | none => st
    | some row => auto_queue_found gen_reply now st author content subreddit score url row

/-- Embedding of scanner.process_post (src/scanner.py lines 191-231) on the
textual fields of a post.  gen_reply and the two timestamp strings abstract
the external templating and datetime collaborators; the high-score
notification of lines 224-229 is fire-and-forget and touches no modelled
state.  Returns the new state and the 0/1 lead count. -/
def process_post (cfg : ScanConfig)
    (gen_reply : String → String → String → Int → String) (now ts : String)
    (st : ScanState) (title selftext author permalink subreddit : String) :
    ScanState × Nat :=
  if author == "[deleted]" || author == "AutoModerator" then (st, 0)
  else if hits_negative_keyword cfg (lowerStr (trimStr (title ++ " " ++ selftext))) then (st, 0)
  else if is_seller cfg (lowerStr (trimStr (title ++ " " ++ selftext))) then (st, 0)
  else if !(passes_local_filter cfg (trimStr (title ++ " " ++ selftext)) subreddit) then (st, 0)
  else
    match score_text cfg (trimStr (title ++ " " ++ selftext)) (some subreddit) with
    | (score, _matches) =>
      if cfg.MIN_SCORE_THRESHOLD ≤ score then
        match insert_lead st.leads "reddit" author
            (takeStr (trimStr (title ++ " " ++ selftext)) 2000)
            ("https://reddit.com" ++ permalink) subreddit score ts with
        | (leads2, inserted) =>
          if inserted then
            (auto_queue_lead gen_reply now { leads := leads2, queue := st.queue }
               author (takeStr (trimStr (title ++ " " ++ selftext)) 2000) subreddit score
               ("https://reddit.com" ++ permalink), 1)
          else ({ leads := leads2, queue := st.queue }, 0)
      else (st, 0)

/-! Helper lemmas about the scoring engine. -/

theorem keyword_matches_mem (cfg : ScanConfig) (tl : String) :
    ∀ p ∈ keyword_matches cfg tl, p ∈ cfg.KEYWORDS := by
  intro p hp
  unfold keyword_matches at hp
  exact (List.mem_filter.mp hp).1

theorem le_max_weight_of_mem (m : String × Int) (rest : List (String × Int)) :
    ∀ p ∈ m :: rest, p.2 ≤ max_weight m rest := by
  induction rest generalizing m with
  | nil =>
    intro p hp
    rw [List.mem_singleton] at hp
    subst hp
    exact le_refl _
  | cons q t ih =>
    intro p hp
    simp only [max_weight]
    rcases List.mem_cons.mp hp with h | h
    · subst h
      exact le_max_left _ _
    · exact le_trans (ih q p h) (le_max_right _ _)

theorem max_weight_le (W : Int) (m : String × Int) (rest : List (String × Int))
    (h : ∀ p ∈ m :: rest, p.2 ≤ W) : max_weight m rest ≤ W := by
  induction rest generalizing m with
  | nil => exact h m (List.mem_cons_self m [])
  | cons q t ih =>
    simp only [max_weight]
    exact max_le (h m (List.mem_cons_self m (q :: t)))
      (ih q (fun p hp => h p (List.mem_cons_of_mem m hp)))

theorem max_weight_mem (m : String × Int) (rest : List (String × Int)) :
    max_weight m rest ∈ (m :: rest).map Prod.snd := by
  induction rest generalizing m with
  | nil => simp [max_weight]
  | cons q t ih =>
    simp only [max_weight]
    rcases max_choice m.2 (max_weight q t) with h | h
    · rw [h]
      exact List.mem_map_of_mem Prod.snd (List.mem_cons_self m (q :: t))
    · rw [h]
      simp only [List.map_cons]
      exact List.mem_cons_of_mem m.2 (ih q)

theorem max_weight_eq (m : String × Int) (rest : List (String × Int)) (W : Int)
    (hub : ∀ p ∈ m :: rest, p.2 ≤ W) (hmem : W ∈ (m :: rest).map Prod.snd) :
    max_weight m rest = W := by
  refine le_antisymm (max_weight_le W m rest hub) ?_
  rcases List.mem_map.mp hmem with ⟨p, hp, hpW⟩
  rw [← hpW]
  exact le_max_weight_of_mem m rest p hp

theorem bonus_nonneg (m : String × Int) (rest : List (String × Int)) :
    0 ≤ min (((m :: rest).length : Int) - 1) 2 := by
  refine le_min ?_ (by norm_num)
  rw [List.length_cons]
  push_cast
  omega

/-! Branch lemmas reducing score_text to one of its result shapes. -/

theorem score_text_eq_no_match (cfg : ScanConfig) (text : String)
    (sub : Option String) (hm : keyword_matches cfg (lowerStr text) = []) :
    score_text cfg text sub = no_match_score cfg (lowerStr text) := by
  unfold score_text
  rw [hm]

theorem score_text_eq_matched (cfg : ScanConfig) (text : String)
    (sub : Option String) (m : String × Int) (rest : List (String × Int))
    (hm : keyword_matches cfg (lowerStr text) = m :: rest) :
    score_text cfg text sub = matched_score cfg (lowerStr text) sub m rest := by
  unfold score_text
  rw [hm]

theorem no_match_score_none (cfg : ScanConfig) (tl : String)
    (hloc : check_location cfg tl = none) :
    no_match_score cfg tl = (0, []) := by
  unfold no_match_score
  rw [hloc]

theorem no_match_score_fallback (cfg : ScanConfig) (tl loc : String)
    (hloc : check_location cfg tl = some loc)
    (htr : fallback_triggers.any (fun kw => strIn kw tl) = true) :
    no_match_score cfg tl =
      (min (cfg.LOCATION_SCORE_BOOST + 3) 10,
       [("📍 " ++ loc, cfg.LOCATION_SCORE_BOOST + 3)]) := by
  unfold no_match_score
  rw [hloc, htr]
  rfl

theorem no_match_score_no_trigger (cfg : ScanConfig) (tl : String)
    (htr : fallback_triggers.any (fun kw => strIn kw tl) = false) :
    no_match_score cfg tl = (0, []) := by
  unfold no_match_score
  cases hloc : check_location cfg tl with
  | none => rfl
  | some loc =>
    rw [htr]
    rfl

theorem matched_score_location (cfg : ScanConfig) (tl loc : String)
    (sub : Option String) (m : String × Int) (rest : List (String × Int))
    (hloc : check_location cfg tl = some loc) :
    matched_score cfg tl sub m rest =
      (min (max_weight m rest + min (((m :: rest).length : Int) - 1) 2
              + cfg.LOCATION_SCORE_BOOST) 10,
       (m :: rest) ++ [("📍 " ++ loc, cfg.LOCATION_SCORE_BOOST)]) := by
  unfold matched_score
  rw [hloc]

theorem matched_score_no_location (cfg : ScanConfig) (tl : String)
    (sub : Option String) (m : String × Int) (rest : List (String × Int))
    (hloc : check_location cfg tl = none) :
    matched_score cfg tl sub m rest = no_location_score cfg m rest sub := by
  unfold matched_score
  rw [hloc]

theorem no_location_score_none (cfg : ScanConfig) (m : String × Int)
    (rest : List (String × Int)) :
    no_location_score cfg m rest none =
      (min (max_weight m rest + min (((m :: rest).length : Int) - 1) 2) 10,
       m :: rest) := by
  unfold no_location_score
  rfl

theorem no_location_score_cap (cfg : ScanConfig) (sub : String)
    (m : String × Int) (rest : List (String × Int))
    (hcond : (sub != "" && !(cfg.LOCAL_SUBREDDITS.contains sub)) = true) :
    no_location_score cfg m rest (some sub) =
      (min (min (max_weight m rest + min (((m :: rest).length : Int) - 1) 2) 6) 10,
       (m :: rest) ++ [("⚠️ no CO location", 0)]) := by
  simp only [no_location_score]
  rw [hcond]
  rfl

theorem no_location_score_no_cap (cfg : ScanConfig) (sub : String)
    (m : String × Int) (rest : List (String × Int))
    (hcond : (sub != "" && !(cfg.LOCAL_SUBREDDITS.contains sub)) = false) :
    no_location_score cfg m rest (some sub) =
      (min (max_weight m rest + min (((m :: rest).length : Int) - 1) 2) 10,
       m :: rest) := by
  simp only [no_location_score]
  rw [hcond]
  rfl

/-- A small concrete profile, in the shape of src/config.py with weights in
the documented 1-10 range, used by the witnesses. -/
def cfgW : ScanConfig :=
  { KEYWORDS := [("need a contractor", 10), ("kitchen remodel", 7)],
    TARGET_LOCATIONS := ["denver"],
    LOCATION_SCORE_BOOST := 3,
    LOCAL_SUBREDDITS := ["Denver"],
    LOCAL_REQUIRED_TERMS := ["remodel"],
    NEGATIVE_KEYWORDS := ["tv show"],
    SELLER_SIGNALS := ["we offer", "free estimate", "call us"],
    MIN_SCORE_THRESHOLD := 4 }

/-- C3: for every text, keyword map (with weights in the profile range
1-10), location list and source category, under a nonnegative location
boost, score_text is deterministic and the score it returns lies in
[0, 10] on every branch. -/
theorem score_text_deterministic_bounded (cfg : ScanConfig) (text : String)
    (subreddit : Option String)
    (hw : ∀ kw ∈ cfg.KEYWORDS, 1 ≤ kw.2 ∧ kw.2 ≤ 10)
    (hb : 0 ≤ cfg.LOCATION_SCORE_BOOST) :
    (∀ t2 s2, t2 = text → s2 = subreddit →
      score_text cfg t2 s2 = score_text cfg text subreddit) ∧
    0 ≤ (score_text cfg text subreddit).1 ∧
    (score_text cfg text subreddit).1 ≤ 10 := by
  refine ⟨fun t2 s2 ht hs => by rw [ht, hs], ?_⟩
  rcases hkm : keyword_matches cfg (lowerStr text) with _ | ⟨m, rest⟩
  · rw [score_text_eq_no_match cfg text subreddit hkm]
    rcases hloc : check_location cfg (lowerStr text) with _ | loc
    · rw [no_match_score_none cfg (lowerStr text) hloc]
      norm_num
    · rcases htr : fallback_triggers.any (fun kw => strIn kw (lowerStr text)) with _ | _
      · rw [no_match_score_no_trigger cfg (lowerStr text) htr]
        norm_num
      · rw [no_match_score_fallback cfg (lowerStr text) loc hloc htr]
        dsimp only
        constructor
        · exact le_min (by linarith) (by norm_num)
        · exact min_le_right _ _
  · have hinK : ∀ p ∈ m :: rest, 1 ≤ p.2 ∧ p.2 ≤ 10 := by
      intro p hp
      apply hw
      apply keyword_matches_mem cfg (lowerStr text)
      rw [hkm]
      exact hp
    have h1 : 1 ≤ max_weight m rest :=
      le_trans (hinK m (List.mem_cons_self m rest)).1
        (le_max_weight_of_mem m rest m (List.mem_cons_self m rest))
    have hb0 := bonus_nonneg m rest
    rw [score_text_eq_matched cfg text subreddit m rest hkm]
    rcases hloc : check_location cfg (lowerStr text) with _ | loc
    · rw [matched_score_no_location cfg (lowerStr text) subreddit m rest hloc]
      rcases subreddit with _ | sub
      · rw [no_location_score_none cfg m rest]
        dsimp only
        constructor
        · exact le_min (by linarith) (by norm_num)
        · exact min_le_right _ _
      · rcases hcond : (sub != "" && !(cfg.LOCAL_SUBREDDITS.contains sub)) with _ | _
        · rw [no_location_score_no_cap cfg sub m rest hcond]
          dsimp only
          constructor
          · exact le_min (by linarith) (by norm_num)
          · exact min_le_right _ _
        · rw [no_location_score_cap cfg sub m rest hcond]
          dsimp only
          constructor
          · exact le_min (le_min (by linarith) (by norm_num)) (by norm_num)
          · exact min_le_right _ _
    · rw [matched_score_location cfg (lowerStr text) loc subreddit m rest hloc]
      dsimp only
      constructor
      · exact le_min (by linarith) (by norm_num)
      · exact min_le_right _ _

/-- C3 witness: the hypotheses and the bounds at a concrete profile, text
and source category. -/
theorem score_text_deterministic_bounded_witness :
    (∀ kw ∈ cfgW.KEYWORDS, 1 ≤ kw.2 ∧ kw.2 ≤ 10) ∧
    (0 ≤ cfgW.LOCATION_SCORE_BOOST) ∧
    (0 ≤ (score_text cfgW ("need a contractor for my kitchen") (some "DIY")).1 ∧
      (score_text cfgW ("need a contractor for my kitchen") (some "DIY")).1 ≤ 10) :=
  ⟨by decide, by decide,
    (score_text_deterministic_bounded cfgW ("need a contractor for my kitchen")
      (some "DIY") (by decide) (by decide)).2⟩

/-- C4: when the matched keywords are m :: rest with maximum weight W, no
location term occurs and no source category is passed, the returned score
is min(W + min(N-1, 2), 10) where N is the number of matches; for a single
matched keyword of weight W at most 10 the score is exactly W. -/
theorem score_text_density_bonus (cfg : ScanConfig) (text : String)
    (m : String × Int) (rest : List (String × Int)) (W : Int)
    (hm : keyword_matches cfg (lowerStr text) = m :: rest)
    (hloc : check_location cfg (lowerStr text) = none)
    (hub : ∀ p ∈ m :: rest, p.2 ≤ W)
    (hWmem : W ∈ (m :: rest).map Prod.snd) :
    (score_text cfg text none).1 =
      min (W + min (((m :: rest).length : Int) - 1) 2) 10 ∧
    (rest = [] → W ≤ 10 → (score_text cfg text none).1 = W) := by
  have hW : max_weight m rest = W := max_weight_eq m rest W hub hWmem
  rw [score_text_eq_matched cfg text none m rest hm,
    matched_score_no_location cfg (lowerStr text) none m rest hloc,
    no_location_score_none cfg m rest, hW]
  constructor
  · rfl
  · intro hrest h10
    subst hrest
    dsimp only
    norm_num
    exact h10

/-- C4 witness: a text matching two keywords of weights 10 and 7, with no
location term: the score is min(10 + min(2-1, 2), 10). -/
theorem score_text_density_bonus_witness :
    (score_text cfgW ("need a contractor for a kitchen remodel job") none).1 =
      min ((10 : Int) +
        min ((([(("need a contractor" : String), (10 : Int)),
            (("kitchen remodel" : String), (7 : Int))].length : Int)) - 1) 2) 10 :=
  (score_text_density_bonus cfgW ("need a contractor for a kitchen remodel job")
    (("need a contractor" : String), (10 : Int))
    [(("kitchen remodel" : String), (7 : Int))] 10
    (by decide) (by decide) (by decide) (by decide)).1

/-- C5: against a national (non-local, nonempty-named) source category,
when the text contains no configured target-location term, the final score
is at most the cap of 6, whatever the keywords and weights. -/
theorem score_text_national_cap (cfg : ScanConfig) (text sub : String)
    (hloc : check_location cfg (lowerStr text) = none)
    (hne : sub ≠ "") (hnat : sub ∉ cfg.LOCAL_SUBREDDITS) :
    (score_text cfg text (some sub)).1 ≤ 6 := by
  have hcond : (sub != "" && !(cfg.LOCAL_SUBREDDITS.contains sub)) = true := by
    have h1 : (sub != "") = true := bne_iff_ne.mpr hne
    have h2 : cfg.LOCAL_SUBREDDITS.contains sub = false := by
      rcases hc : cfg.LOCAL_SUBREDDITS.contains sub with _ | _
      · rfl
      · exact absurd (List.elem_iff.mp hc) hnat
    rw [h1, h2]
    rfl
  rcases hkm : keyword_matches cfg (lowerStr text) with _ | ⟨m, rest⟩
  · rw [score_text_eq_no_match cfg text (some sub) hkm,
      no_match_score_none cfg (lowerStr text) hloc]
    norm_num
  · rw [score_text_eq_matched cfg text (some sub) m rest hkm,
      matched_score_no_location cfg (lowerStr text) (some sub) m rest hloc,
      no_location_score_cap cfg sub m rest hcond]
    exact le_trans (min_le_left _ _) (min_le_right _ _)

/-- C5 witness: a maximum-weight keyword match from a national subreddit
with no location term is capped at 6. -/
theorem score_text_national_cap_witness :
    (check_location cfgW (lowerStr ("need a contractor right now")) = none) ∧
    (("HomeImprovement" : String) ≠ "") ∧
    (("HomeImprovement" : String) ∉ cfgW.LOCAL_SUBREDDITS) ∧
    (score_text cfgW ("need a contractor right now") (some "HomeImprovement")).1 ≤ 6 :=
  ⟨by decide, by decide, by decide,
    score_text_national_cap cfgW ("need a contractor right now") "HomeImprovement"
      (by decide) (by decide) (by decide)⟩

/-- C6: with no keyword match, score_text returns (0, []); the only
exception is the location fallback, which requires a configured location
term in the text together with a generic trigger word and then grants a
positive score (for a nonnegative boost).  In particular no keyword match
and no location term always give (0, []). -/
theorem score_text_no_keyword_fallback (cfg : ScanConfig) (text : String)
    (sub : Option String)
    (hm : keyword_matches cfg (lowerStr text) = []) :
    (check_location cfg (lowerStr text) = none → score_text cfg text sub = (0, [])) ∧
    (fallback_triggers.any (fun kw => strIn kw (lowerStr text)) = false →
      score_text cfg text sub = (0, [])) ∧
    (∀ loc, check_location cfg (lowerStr text) = some loc →
      fallback_triggers.any (fun kw => strIn kw (lowerStr text)) = true →
      0 ≤ cfg.LOCATION_SCORE_BOOST →
      score_text cfg text sub =
        (min (cfg.LOCATION_SCORE_BOOST + 3) 10,
         [("📍 " ++ loc, cfg.LOCATION_SCORE_BOOST + 3)]) ∧
      0 < (score_text cfg text sub).1) := by
  rw [score_text_eq_no_match cfg text sub hm]
  refine ⟨fun hloc => no_match_score_none cfg (lowerStr text) hloc,
    fun htr => no_match_score_no_trigger cfg (lowerStr text) htr,
    fun loc hloc htr hb => ?_⟩
  rw [no_match_score_fallback cfg (lowerStr text) loc hloc htr]
  refine ⟨rfl, ?_⟩
  dsimp only
  exact lt_min (by linarith) (by norm_num)

/-- C6 witness: a text with no keyword match but a location term and a
trigger word gets a positive fallback score. -/
theorem score_text_no_keyword_fallback_witness :
    (keyword_matches cfgW (lowerStr ("remodel in denver")) = []) ∧
    0 < (score_text cfgW ("remodel in denver") none).1 :=
  ⟨by decide,
    ((score_text_no_keyword_fallback cfgW ("remodel in denver") none (by decide)).2.2
      "denver" (by decide) (by decide) (by decide)).2⟩

/-- Profile with an empty keyword map but a configured location list, used
for claim C7. -/
def cfgEmptyKw : ScanConfig :=
  { KEYWORDS := [],
    TARGET_LOCATIONS := ["denver"],
    LOCATION_SCORE_BOOST := 3,
    LOCAL_SUBREDDITS := [],
    LOCAL_REQUIRED_TERMS := [],
    NEGATIVE_KEYWORDS := [],
    SELLER_SIGNALS := [],
    MIN_SCORE_THRESHOLD := 4 }

/-- C7 counterexample: with an empty keyword map and a configured location
list, a text with a location term and a trigger word is not scored (0, []):
the location fallback fires, so the engine does not always return (0, []). -/
theorem score_text_empty_map_cex :
    cfgEmptyKw.KEYWORDS = [] ∧
    score_text cfgEmptyKw ("remodel in denver") none = (6, [("📍 denver", 6)]) ∧
    score_text cfgEmptyKw ("remodel in denver") none ≠ (0, []) := by
  refine ⟨rfl, by decide, by decide⟩

/-- C7 amended: with an empty keyword map the engine always takes the
no-keyword-match path: it returns (0, []) unless a location list is
configured and the text holds a location term together with a generic
trigger word, in which case the location fallback result is returned,
exactly as for a nonempty map with no match. -/
theorem score_text_empty_map (cfg : ScanConfig) (text : String)
    (sub : Option String) (hK : cfg.KEYWORDS = []) :
    score_text cfg text sub = no_match_score cfg (lowerStr text) ∧
    (check_location cfg (lowerStr text) = none → score_text cfg text sub = (0, [])) ∧
    (fallback_triggers.any (fun kw => strIn kw (lowerStr text)) = false →
      score_text cfg text sub = (0, [])) ∧
    (∀ loc, check_location cfg (lowerStr text) = some loc →
      fallback_triggers.any (fun kw => strIn kw (lowerStr text)) = true →
      score_text cfg text sub =
        (min (cfg.LOCATION_SCORE_BOOST + 3) 10,
         [("📍 " ++ loc, cfg.LOCATION_SCORE_BOOST + 3)])) := by
  have hm : keyword_matches cfg (lowerStr text) = [] := by
    unfold keyword_matches
    rw [hK]
    rfl
  rw [score_text_eq_no_match cfg text sub hm]
  exact ⟨rfl, fun hloc => no_match_score_none cfg (lowerStr text) hloc,
    fun htr => no_match_score_no_trigger cfg (lowerStr text) htr,
    fun loc hloc htr => no_match_score_fallback cfg (lowerStr text) loc hloc htr⟩

/-- C7 witness for the amended claim: with the empty keyword map and a text
with no location term, the engine returns (0, []). -/
theorem score_text_empty_map_witness :
    cfgEmptyKw.KEYWORDS = [] ∧
    score_text cfgEmptyKw ("hello world") none = (0, []) :=
  ⟨rfl, (score_text_empty_map cfgEmptyKw ("hello world") none rfl).2.1 (by decide)⟩

/-! Helper lemmas about the queue operations. -/

theorem apply_update_id (qid : Nat) (st : String) (err : Option String)
    (r : QueueItem) : (apply_update qid st err r).id = r.id := by
  unfold apply_update
  split
  · cases err <;> rfl
  · rfl

theorem apply_update_idem (qid : Nat) (st : String) (r : QueueItem) :
    apply_update qid st none (apply_update qid st none r) =
      apply_update qid st none r := by
  unfold apply_update
  by_cases h : (r.id == qid) = true
  · simp [h]
  · simp [h]

theorem find?_map_apply_update (rows : List QueueItem) (qid : Nat)
    (st : String) (err : Option String) :
    (rows.map (apply_update qid st err)).find? (fun r => r.id == qid) =
      Option.map (apply_update qid st err)
        (rows.find? (fun r => r.id == qid)) := by
  rw [List.find?_map]
  have hp : ((fun r : QueueItem => r.id == qid) ∘ apply_update qid st err) =
      (fun r : QueueItem => r.id == qid) := by
    funext r
    simp only [Function.comp_apply]
    rw [apply_update_id]
  rw [hp]

theorem find?_eq_some_of_exists (rows : List QueueItem) (qid : Nat)
    (hex : ∃ r ∈ rows, r.id = qid) :
    ∃ r0, rows.find? (fun r => r.id == qid) = some r0 ∧ r0.id = qid := by
  obtain ⟨r, hr, hid⟩ := hex
  have hs : (rows.find? (fun r => r.id == qid)).isSome = true := by
    rw [List.find?_isSome]
    exact ⟨r, hr, by simp [hid]⟩
  obtain ⟨r0, h0⟩ := Option.isSome_iff_exists.mp hs
  refine ⟨r0, h0, ?_⟩
  have hp := List.find?_some h0
  simpa using hp

theorem get_status_update_queue_status (db : QueueDB) (qid : Nat)
    (st : String) (err : Option String) (hex : ∃ r ∈ db.rows, r.id = qid) :
    get_status (update_queue_status db qid st err) qid = some st := by
  unfold get_status update_queue_status
  dsimp only
  rw [find?_map_apply_update]
  obtain ⟨r0, h0, hid⟩ := find?_eq_some_of_exists db.rows qid hex
  rw [h0]
  simp only [Option.map_some']
  unfold apply_update
  rw [if_pos (by simp [hid])]
  cases err <;> rfl

theorem apply_update_fields_some (qid : Nat) (st e : String) (r : QueueItem)
    (h : (r.id == qid) = true) :
    apply_update qid st (some e) r =
      { r with status := st, error_message := e } := by
  unfold apply_update
  rw [if_pos h]

theorem mem_update_queue_status (db : QueueDB) (qid : Nat) (st : String)
    (err : Option String) :
    ∀ r2 ∈ (update_queue_status db qid st err).rows,
      ∃ r ∈ db.rows, r2 = apply_update qid st err r := by
  intro r2 h2
  unfold update_queue_status at h2
  dsimp only at h2
  obtain ⟨r, hr, hrr⟩ := List.mem_map.mp h2
  exact ⟨r, hr, hrr.symm⟩

/-! Claims about the lead store and the reply queue. -/

theorem insert_lead_absent_step (db : LeadsDB) (p u c url s : String)
    (sc : Int) (t : String)
    (hany : db.rows.any (fun r => r.url == url) = false) :
    insert_lead db p u c url s sc t =
      ({ rows := db.rows ++
          [{ id := db.next_id, platform := p, username := u,
             content := takeStr c 2000, url := url, subreddit := s,
             intent_score := sc, found_at := t }],
         next_id := db.next_id + 1 }, true) := by
  unfold insert_lead
  rw [hany]
  rfl

theorem insert_lead_present_step (db : LeadsDB) (p u c url s : String)
    (sc : Int) (t : String)
    (hany : db.rows.any (fun r => r.url == url) = true) :
    insert_lead db p u c url s sc t = (db, false) := by
  unfold insert_lead
  rw [hany]
  rfl

theorem insert_lead_dup (db : LeadsDB) (p u c url s : String)
    (sc : Int) (t : String) (hex : ∃ r ∈ db.rows, r.url = url) :
    insert_lead db p u c url s sc t = (db, false) := by
  apply insert_lead_present_step
  rw [List.any_eq_true]
  obtain ⟨r, hr, hu⟩ := hex
  exact ⟨r, hr, by simp [hu]⟩

/-- C1: inserting the same url twice (the second call with arbitrary other
fields): the first call reports newly-inserted, the second reports false and
leaves the table unchanged, exactly one row for the url exists afterwards,
and that row still carries every field written by the first call (contacted
and notes at their column defaults). -/
theorem insert_lead_dedup (db : LeadsDB)
    (p1 u1 c1 s1 t1 p2 u2 c2 s2 t2 url : String) (sc1 sc2 : Int)
    (habs : ∀ r ∈ db.rows, r.url ≠ url) :
    (insert_lead db p1 u1 c1 url s1 sc1 t1).2 = true ∧
    (insert_lead (insert_lead db p1 u1 c1 url s1 sc1 t1).1
      p2 u2 c2 url s2 sc2 t2).2 = false ∧
    (insert_lead (insert_lead db p1 u1 c1 url s1 sc1 t1).1
      p2 u2 c2 url s2 sc2 t2).1 = (insert_lead db p1 u1 c1 url s1 sc1 t1).1 ∧
    ((insert_lead (insert_lead db p1 u1 c1 url s1 sc1 t1).1
      p2 u2 c2 url s2 sc2 t2).1.rows.countP (fun r => r.url == url)) = 1 ∧
    (∀ r ∈ (insert_lead (insert_lead db p1 u1 c1 url s1 sc1 t1).1
        p2 u2 c2 url s2 sc2 t2).1.rows, r.url = url →
      r.platform = p1 ∧ r.username = u1 ∧ r.content = takeStr c1 2000 ∧
      r.subreddit = s1 ∧ r.intent_score = sc1 ∧ r.found_at = t1 ∧
      r.contacted = 0 ∧ r.notes = "") := by
  have hany1 : db.rows.any (fun r => r.url == url) = false := by
    rw [List.any_eq_false]
    intro r hr
    simp [habs r hr]
  set L1 : Lead :=
    ({ id := db.next_id, platform := p1, username := u1,
       content := takeStr c1 2000, url := url, subreddit := s1,
       intent_score := sc1, found_at := t1 } : Lead) with hL1def
  have hstep1 : insert_lead db p1 u1 c1 url s1 sc1 t1 =
      ({ rows := db.rows ++ [L1], next_id := db.next_id + 1 }, true) :=
    insert_lead_absent_step db p1 u1 c1 url s1 sc1 t1 hany1
  have hurl : L1.url = url := by rw [hL1def]
  have hdup : insert_lead
      { rows := db.rows ++ [L1], next_id := db.next_id + 1 }
      p2 u2 c2 url s2 sc2 t2 =
      ({ rows := db.rows ++ [L1], next_id := db.next_id + 1 }, false) :=
    insert_lead_dup _ p2 u2 c2 url s2 sc2 t2 ⟨L1, by simp, hurl⟩
  rw [hstep1]
  dsimp only
  rw [hdup]
  dsimp only
  refine ⟨rfl, rfl, rfl, ?_, ?_⟩
  · rw [List.countP_append]
    have hc0 : db.rows.countP (fun r => r.url == url) = 0 := by
      rw [List.countP_eq_zero]
      intro r hr
      simp [habs r hr]
    rw [hc0]
    simp [hurl]
  · intro r hr hru
    rcases List.mem_append.mp hr with h | h
    · exact absurd hru (habs r h)
    · rw [List.mem_singleton] at h
      subst h
      rw [hL1def]
      exact ⟨rfl, rfl, rfl, rfl, rfl, rfl, rfl, rfl⟩

/-- C1 witness: two inserts of the same url into an empty table. -/
theorem insert_lead_dedup_witness :
    (∀ r ∈ (({ rows := [], next_id := 1 } : LeadsDB)).rows,
      r.url ≠ "https://reddit.com/p1") ∧
    (insert_lead { rows := [], next_id := 1 } "reddit" "alice" "text one"
      "https://reddit.com/p1" "Denver" 9 "t1").2 = true ∧
    (insert_lead (insert_lead { rows := [], next_id := 1 } "reddit" "alice"
        "text one" "https://reddit.com/p1" "Denver" 9 "t1").1
      "reddit" "bob" "text two" "https://reddit.com/p1" "DIY" 3 "t2").2 = false :=
  ⟨by decide,
    (insert_lead_dedup { rows := [], next_id := 1 } "reddit" "alice" "text one"
      "Denver" "t1" "reddit" "bob" "text two" "DIY" "t2"
      "https://reddit.com/p1" 9 3 (by decide)).1,
    (insert_lead_dedup { rows := [], next_id := 1 } "reddit" "alice" "text one"
      "Denver" "t1" "reddit" "bob" "text two" "DIY" "t2"
      "https://reddit.com/p1" 9 3 (by decide)).2.1⟩

/-- A queue with a single pending item, used for claim C2. -/
def qPending : QueueDB :=
  { rows := [{ id := 1, lead_id := 1, reply_text := "draft",
               target_url := "url", status := "pending",
               created_at := "t0" }], next_id := 2 }

/-- A queue with a single posted item, used for claim C2. -/
def qPosted : QueueDB :=
  { rows := [{ id := 3, lead_id := 3, reply_text := "draft",
               target_url := "url", status := "posted", created_at := "t0",
               posted_at := some "t1" }], next_id := 4 }

/-- C2 counterexample: the queue operations carry no state-machine guard.
Skip after approve changes the status from approved to skipped, approve
after skip changes it back to approved, and skip on a posted (terminal)
item changes it to skipped — the claimed rejected-or-no-op behavior fails
on these concrete items. -/
theorem reply_queue_no_guard_cex :
    get_status (approve_reply qPending 1) 1 = some "approved" ∧
    get_status (skip_reply (approve_reply qPending 1) 1) 1 = some "skipped" ∧
    get_status (approve_reply (skip_reply qPending 1) 1) 1 = some "approved" ∧
    get_status qPosted 3 = some "posted" ∧
    get_status (skip_reply qPosted 3) 3 = some "skipped" ∧
    (("skipped" : String) ≠ "approved") ∧ (("skipped" : String) ≠ "posted") :=
  ⟨rfl, rfl, rfl, rfl, rfl, by decide, by decide⟩

/-- C2 corrected: approve_reply and skip_reply update the stored status
unconditionally, whatever it was: after approve the item reads approved
(and approve is idempotent), after skip it reads skipped — there is no
rejection and no no-op on terminal states. -/
theorem approve_skip_unconditional (db : QueueDB) (queue_id : Nat)
    (hex : ∃ r ∈ db.rows, r.id = queue_id) :
    get_status (approve_reply db queue_id) queue_id = some "approved" ∧
    get_status (skip_reply db queue_id) queue_id = some "skipped" ∧
    get_status (skip_reply (approve_reply db queue_id) queue_id) queue_id =
      some "skipped" ∧
    approve_reply (approve_reply db queue_id) queue_id =
      approve_reply db queue_id := by
  have hex2 : ∃ r ∈ (approve_reply db queue_id).rows, r.id = queue_id := by
    obtain ⟨r, hr, hid⟩ := hex
    refine ⟨apply_update queue_id "approved" none r, ?_, ?_⟩
    · unfold approve_reply update_queue_status
      dsimp only
      exact List.mem_map_of_mem _ hr
    · rw [apply_update_id]
      exact hid
  have hrow : ((db.rows.map (apply_update queue_id "approved" none)).map
      (apply_update queue_id "approved" none)) =
      db.rows.map (apply_update queue_id "approved" none) := by
    rw [List.map_map]
    congr 1
    funext r
    exact apply_update_idem queue_id "approved" r
  have hidem : approve_reply (approve_reply db queue_id) queue_id =
      approve_reply db queue_id := by
    unfold approve_reply update_queue_status
    dsimp only
    rw [hrow]
  exact ⟨get_status_update_queue_status db queue_id "approved" none hex,
    get_status_update_queue_status db queue_id "skipped" none hex,
    get_status_update_queue_status (approve_reply db queue_id) queue_id
      "skipped" none hex2,
    hidem⟩

/-- C2 witness for the corrected claim, at a concrete one-item queue. -/
theorem approve_skip_unconditional_witness :
    (∃ r ∈ qPending.rows, r.id = 1) ∧
    get_status (skip_reply (approve_reply qPending 1) 1) 1 = some "skipped" :=
  ⟨by decide, (approve_skip_unconditional qPending 1 (by decide)).2.2.1⟩

/-- C8: the seller filter (scanner._is_seller, applied by process_post)
rejects a text exactly when at least two of the configured seller-signal
phrases occur in it; with zero or one occurring phrase — in particular
against a single-phrase signal list, however often that phrase repeats in
the text — it does not reject, and a rejected post leaves the state
unchanged with a zero lead count. -/
theorem seller_filter_spec (cfg : ScanConfig) (text_lower : String) :
    (is_seller cfg text_lower = true ↔
      2 ≤ cfg.SELLER_SIGNALS.countP (fun s => strIn s text_lower)) ∧
    (cfg.SELLER_SIGNALS.countP (fun s => strIn s text_lower) ≤ 1 →
      is_seller cfg text_lower = false) ∧
    (∀ p, cfg.SELLER_SIGNALS = [p] → is_seller cfg text_lower = false) ∧
    (∀ gen now ts st title selftext author permalink subreddit,
      is_seller cfg (lowerStr (trimStr (title ++ " " ++ selftext))) = true →
      process_post cfg gen now ts st title selftext author permalink
        subreddit = (st, 0)) := by
  have hiff : is_seller cfg text_lower = true ↔
      2 ≤ cfg.SELLER_SIGNALS.countP (fun s => strIn s text_lower) := by
    unfold is_seller
    by_cases hE : cfg.SELLER_SIGNALS.isEmpty = true
    · rw [if_pos hE]
      rw [List.isEmpty_iff] at hE
      rw [hE]
      simp
    · rw [if_neg hE]
      simp
  have hnot : cfg.SELLER_SIGNALS.countP (fun s => strIn s text_lower) ≤ 1 →
      is_seller cfg text_lower = false := by
    intro hle
    rcases hval : is_seller cfg text_lower with _ | _
    · rfl
    · exact absurd (hiff.mp hval) (by omega)
  refine ⟨hiff, hnot, ?_, ?_⟩
  · intro p hp
    apply hnot
    rw [hp]
    exact List.countP_le_length _
  · intro gen now ts st title selftext author permalink subreddit hsell
    unfold process_post
    by_cases h1 : (author == "[deleted]" || author == "AutoModerator") = true
    · rw [if_pos h1]
    · rw [if_neg h1]
      by_cases h2 : hits_negative_keyword cfg
          (lowerStr (trimStr (title ++ " " ++ selftext))) = true
      · rw [if_pos h2]
      · rw [if_neg h2, if_pos hsell]

/-- C8 witness: a post tripping three seller signals is dropped with no
state change; a text with a single signal phrase repeated is kept. -/
theorem seller_filter_spec_witness :
    is_seller cfgW (lowerStr (trimStr ("We offer" ++ " " ++
      "a free estimate so call us today"))) = true ∧
    process_post cfgW (fun _ _ _ _ => "draft") "now" "ts"
      { leads := { rows := [], next_id := 1 },
        queue := { rows := [], next_id := 1 } }
      "We offer" "a free estimate so call us today" "seller_bob" "/r/x/1"
      "DIY" =
      ({ leads := { rows := [], next_id := 1 },
         queue := { rows := [], next_id := 1 } }, 0) :=
  ⟨by decide,
    (seller_filter_spec cfgW "").2.2.2 (fun _ _ _ _ => "draft") "now" "ts"
      { leads := { rows := [], next_id := 1 },
        queue := { rows := [], next_id := 1 } }
      "We offer" "a free estimate so call us today" "seller_bob" "/r/x/1"
      "DIY" (by decide)⟩

/-- C9: post_reply on an existing, never-posted queue item while delivery
credentials are not configured: the call returns a failure result (it does
not raise), the item transitions to failed with the fixed non-empty
error_message recorded, and posted_at stays unset. -/
theorem post_reply_missing_credentials (db : QueueDB) (queue_id : Nat)
    (delivery : Except String Unit) (now : String)
    (hex : ∃ r ∈ db.rows, r.id = queue_id)
    (hnp : ∀ r ∈ db.rows, r.id = queue_id → r.posted_at = none) :
    (post_reply db false delivery now queue_id).2.1 = false ∧
    (post_reply db false delivery now queue_id).2.2 ≠ "" ∧
    get_status (post_reply db false delivery now queue_id).1 queue_id =
      some "failed" ∧
    (∀ r ∈ (post_reply db false delivery now queue_id).1.rows,
      r.id = queue_id →
      r.status = "failed" ∧
      r.error_message = "Reddit credentials not configured" ∧
      r.error_message ≠ "" ∧ r.posted_at = none) := by
  obtain ⟨r0, h0, hid0⟩ := find?_eq_some_of_exists db.rows queue_id hex
  have hpr : post_reply db false delivery now queue_id =
      (update_queue_status db queue_id "failed"
        (some "Reddit credentials not configured"),
       false, "Reddit credentials not configured") := by
    unfold post_reply
    rw [h0]
    rfl
  rw [hpr]
  dsimp only
  refine ⟨rfl, by decide,
    get_status_update_queue_status db queue_id "failed" _ hex, ?_⟩
  intro r hr hid
  obtain ⟨r1, hr1, heq⟩ := mem_update_queue_status db queue_id "failed" _ r hr
  subst heq
  rw [apply_update_id] at hid
  have h1 : (r1.id == queue_id) = true := by simp [hid]
  rw [apply_update_fields_some queue_id "failed"
    "Reddit credentials not configured" r1 h1]
  exact ⟨rfl, rfl, by dsimp only; decide, hnp r1 hr1 hid⟩

/-- A one-item approved queue whose item was never posted, for claim C9. -/
def qNoCreds : QueueDB :=
  { rows := [{ id := 1, lead_id := 1, reply_text := "draft",
               target_url := "url", status := "approved",
               created_at := "t0" }], next_id := 2 }

/-- C9 witness: posting with no credentials at the concrete queue. -/
theorem post_reply_missing_credentials_witness :
    (∃ r ∈ qNoCreds.rows, r.id = 1) ∧
    (∀ r ∈ qNoCreds.rows, r.id = 1 → r.posted_at = none) ∧
    get_status (post_reply qNoCreds false (Except.ok ()) "now" 1).1 1 =
      some "failed" :=
  ⟨by decide, by decide,
    (post_reply_missing_credentials qNoCreds 1 (Except.ok ()) "now"
      (by decide) (by decide)).2.2.1⟩

/-- C10: the auto-enqueue step for a stored lead found by url: with score
at least 7 and no existing reply_queue row for the lead (of any status), it
appends exactly one new pending queue item for that lead and touches
nothing else; with score below 7, or with any existing queue row for the
lead, it changes nothing.  The last conjunct spells out that
is_lead_queued = false means no queue row with this lead id of any status. -/
theorem auto_queue_lead_spec (gen : String → String → String → Int → String)
    (now : String) (st : ScanState) (author content subreddit : String)
    (score : Int) (url : String) (lead : Lead)
    (hfind : st.leads.rows.find? (fun r => r.url == url) = some lead) :
    (7 ≤ score → is_lead_queued st.queue lead.id = false →
      auto_queue_lead gen now st author content subreddit score url =
        { leads := st.leads,
          queue :=
            { rows := st.queue.rows ++
                [{ id := st.queue.next_id, lead_id := lead.id,
                   reply_text := gen author content subreddit score,
                   target_url := url, status := "pending",
                   created_at := now }],
              next_id := st.queue.next_id + 1 } }) ∧
    (score < 7 →
      auto_queue_lead gen now st author content subreddit score url = st) ∧
    (is_lead_queued st.queue lead.id = true →
      auto_queue_lead gen now st author content subreddit score url = st) ∧
    (is_lead_queued st.queue lead.id = false ↔
      ∀ r ∈ st.queue.rows, r.lead_id ≠ lead.id) := by
  have hdispatch : ¬(score < 7) →
      auto_queue_lead gen now st author content subreddit score url =
        auto_queue_found gen now st author content subreddit score url lead := by
    intro hge
    unfold auto_queue_lead
    rw [if_neg hge, hfind]
  refine ⟨?_, ?_, ?_, ?_⟩
  · intro hsc hq
    rw [hdispatch (not_lt.mpr hsc)]
    unfold auto_queue_found
    rw [hq]
    rfl
  · intro hlt
    unfold auto_queue_lead
    rw [if_pos hlt]
  · intro hq
    by_cases hlt : score < 7
    · unfold auto_queue_lead
      rw [if_pos hlt]
    · rw [hdispatch hlt]
      unfold auto_queue_found
      rw [hq]
      rfl
  · unfold is_lead_queued
    constructor
    · intro h r hr
      have hnp : ¬(0 < st.queue.rows.countP
          (fun r => r.lead_id == lead.id)) := of_decide_eq_false h
      have hz : st.queue.rows.countP (fun r => r.lead_id == lead.id) = 0 := by
        omega
      have hh := List.countP_eq_zero.mp hz r hr
      simpa using hh
    · intro h
      have hz : st.queue.rows.countP (fun r => r.lead_id == lead.id) = 0 := by
        rw [List.countP_eq_zero]
        intro r hr
        simp [h r hr]
      rw [hz]
      rfl

/-- The single stored lead used by the C10 witness. -/
def leadW : Lead :=
  { id := 1, platform := "reddit", username := "alice",
    content := "need a contractor", url := "https://reddit.com/p1",
    subreddit := "Denver", intent_score := 9, found_at := "t0" }

/-- The scanner state holding leadW and an empty queue, for claim C10. -/
def stW : ScanState :=
  { leads := { rows := [leadW], next_id := 2 },
    queue := { rows := [], next_id := 1 } }

/-- C10 witness: a score-9 lead with an empty queue gets exactly one new
pending queue item. -/
theorem auto_queue_lead_spec_witness :
    (stW.leads.rows.find? (fun r => r.url == "https://reddit.com/p1") =
      some leadW) ∧
    (7 ≤ (9 : Int)) ∧ (is_lead_queued stW.queue leadW.id = false) ∧
    auto_queue_lead (fun _ _ _ _ => "draft") "now" stW "alice"
      "need a contractor" "Denver" 9 "https://reddit.com/p1" =
      { leads := stW.leads,
        queue :=
          { rows := [{ id := 1, lead_id := 1, reply_text := "draft",
                       target_url := "https://reddit.com/p1",
                       status := "pending", created_at := "now" }],
            next_id := 2 } } := by
  refine ⟨by decide, by decide, by decide, ?_⟩
  rw [(auto_queue_lead_spec (fun _ _ _ _ => "draft") "now" stW "alice"
    "need a contractor" "Denver" 9 "https://reddit.com/p1" leadW
    (by decide)).1 (by decide) (by decide)]
  rfl

end GoldRush
